import Mathlib

/-!
Verification of the resource-wrapper layer in `p5/opengl/gloo.py` (the p5
repository's OpenGL object layer).

The Python module wraps OpenGL handles in classes (`VertexBuffer`, `Texture`,
`DummyFrameBuffer`, `FrameBuffer`).  We give a shallow embedding: the OpenGL
context is an explicit state (`GLState`) holding the global bind slots, the
per-texture sampling parameters, a handle counter and a trace of every driver
command issued; each Python method becomes a Lean function threading this
state.  Python exceptions become `Except` values that carry the state at the
moment the exception propagates (side effects performed before the raise are
kept, as in Python).
-/

/- OpenGL enumeration constants, with the numeric values pyglet exposes. -/

def GL_ARRAY_BUFFER : Nat := 34962
def GL_ELEMENT_ARRAY_BUFFER : Nat := 34963
def GL_FLOAT : Nat := 5126
def GL_UNSIGNED_INT : Nat := 5125
def GL_STATIC_DRAW : Nat := 35044
def GL_POINTS : Nat := 0
def GL_LINE_STRIP : Nat := 3
def GL_LINE_LOOP : Nat := 2
def GL_TRIANGLES : Nat := 4
def GL_TRIANGLE_FAN : Nat := 6
def GL_TEXTURE_2D : Nat := 3553
def GL_TEXTURE_WRAP_S : Nat := 10242
def GL_TEXTURE_WRAP_T : Nat := 10243
def GL_TEXTURE_MIN_FILTER : Nat := 10241
def GL_TEXTURE_MAG_FILTER : Nat := 10240
def GL_CLAMP_TO_EDGE : Nat := 33071
def GL_LINEAR : Nat := 9729
def GL_RGB : Nat := 6407
def GL_UNSIGNED_BYTE : Nat := 5121
def GL_FRAMEBUFFER_EXT : Nat := 36160
def GL_FRAMEBUFFER_COMPLETE_EXT : Nat := 36053
def GL_COLOR_ATTACHMENT0_EXT : Nat := 36064

/-- A Python-level exception, as raised by the code in `gloo.py`:
`KeyError` from dictionary lookups, `ValueError` from
`VertexBuffer.draw`, `NameError` from evaluating an undefined name,
`TypeError` from `len(None)`, and the plain `Exception` raised by
`FrameBuffer._check_completion_status`. -/
inductive PyError where
  | keyError (key : String)
  | valueError (msg : String)
  | nameError (name : String)
  | typeError (msg : String)
  | exception (msg : String)
  deriving Repr, DecidableEq

/-- One driver command issued to the OpenGL context.  The trace of these
commands is recorded in `GLState` in issue order. -/
inductive GLCmd where
  | genBuffers (n : Nat) (handle : Nat)
  | bindBuffer (target : Nat) (handle : Nat)
  | bufferData (target : Nat) (size : Nat) (data : List Int) (usage : Nat)
  | drawElements (mode : Nat) (count : Nat) (etype : Nat) (indices : Nat)
  | deleteBuffers (n : Nat) (handle : Nat)
  | genTextures (n : Nat) (handle : Nat)
  | bindTexture (target : Nat) (handle : Nat)
  | texImage2D (target : Nat) (level : Nat) (internalformat : Nat)
      (width : Nat) (height : Nat) (border : Nat) (format : Nat)
      (pixeltype : Nat) (data : List Nat)
  | texParameteri (target : Nat) (pname : Nat) (param : Nat)
  | deleteTextures (n : Nat) (handle : Nat)
  | genFramebuffers (n : Nat) (handle : Nat)
  | bindFramebuffer (target : Nat) (handle : Nat)
  | checkFramebufferStatus (target : Nat)
  | framebufferTexture2D (target : Nat) (attachment : Nat) (textarget : Nat)
      (texture : Nat) (level : Nat)
  | deleteFramebuffers (handle : Nat)
  deriving Repr, DecidableEq

/-- The OpenGL context state visible to `gloo.py`: the global bind slots
(array buffer, element array buffer, 2D texture, framebuffer), the sampling
parameters of every texture handle, the driver's handle counter, the status
that `glCheckFramebufferStatusEXT` reports, and the trace of issued
commands. -/
structure GLState where
  nextHandle : Nat
  boundArrayBuffer : Nat
  boundElementBuffer : Nat
  boundTexture2D : Nat
  boundFramebuffer : Nat
  texParams : Nat → Nat → Nat
  fbStatus : Nat
  trace : List GLCmd

/-- A fresh context whose framebuffer status query reports `status`: nothing
bound, no commands issued, first driver handle is 1. -/
def GLState.initial (status : Nat) : GLState :=
  { nextHandle := 1
    boundArrayBuffer := 0
    boundElementBuffer := 0
    boundTexture2D := 0
    boundFramebuffer := 0
    texParams := fun _ _ => 0
    fbStatus := status
    trace := [] }

/- Driver primitives (the `gl.*` calls used by gloo.py). -/

/-- `gl.glGenBuffers(1, ct.pointer(self._id))`: allocate one buffer handle. -/
def glGenBuffers (s : GLState) : Nat × GLState :=
  (s.nextHandle,
    { s with nextHandle := s.nextHandle + 1
             trace := s.trace ++ [GLCmd.genBuffers 1 s.nextHandle] })

/-- `gl.glBindBuffer(target, handle)`: set the bind slot that `target`
names. -/
def glBindBuffer (target handle : Nat) (s : GLState) : GLState :=
  let s' := { s with trace := s.trace ++ [GLCmd.bindBuffer target handle] }
  if target = GL_ARRAY_BUFFER then { s' with boundArrayBuffer := handle }
  else if target = GL_ELEMENT_ARRAY_BUFFER then
    { s' with boundElementBuffer := handle }
  else s'

/-- `gl.glBufferData(target, size, data, usage)`.  The ctypes array built by
the setter is modelled by its element list and its byte size. -/
def glBufferData (target size : Nat) (data : List Int) (usage : Nat)
    (s : GLState) : GLState :=
  { s with trace := s.trace ++ [GLCmd.bufferData target size data usage] }

/-- `gl.glDrawElements(mode, count, type, indices)`. -/
def glDrawElements (mode count etype indices : Nat) (s : GLState) : GLState :=
  { s with trace := s.trace ++ [GLCmd.drawElements mode count etype indices] }

/-- `gl.glDeleteBuffers(1, self._id)`. -/
def glDeleteBuffers (handle : Nat) (s : GLState) : GLState :=
  { s with trace := s.trace ++ [GLCmd.deleteBuffers 1 handle] }

/-- `gl.glGenTextures(1, ct.pointer(self._id))`: allocate one texture
handle. -/
def glGenTextures (s : GLState) : Nat × GLState :=
  (s.nextHandle,
    { s with nextHandle := s.nextHandle + 1
             trace := s.trace ++ [GLCmd.genTextures 1 s.nextHandle] })

/-- `gl.glBindTexture(target, handle)`. -/
def glBindTexture (target handle : Nat) (s : GLState) : GLState :=
  let s' := { s with trace := s.trace ++ [GLCmd.bindTexture target handle] }
  if target = GL_TEXTURE_2D then { s' with boundTexture2D := handle } else s'

/-- `gl.glTexParameteri(target, pname, param)`: sets parameter `pname` of the
texture currently bound to `GL_TEXTURE_2D`. -/
def glTexParameteri (target pname param : Nat) (s : GLState) : GLState :=
  let s' := { s with trace := s.trace ++ [GLCmd.texParameteri target pname param] }
  let updated := Function.update s.texParams s.boundTexture2D
    (Function.update (s.texParams s.boundTexture2D) pname param)
  if target = GL_TEXTURE_2D then { s' with texParams := updated }
  else s'

/-- `gl.glTexImage2D(...)`: upload a full image to the bound texture. -/
def glTexImage2D (target level internalformat width height border format
    pixeltype : Nat) (data : List Nat) (s : GLState) : GLState :=
  { s with trace := s.trace ++
      [GLCmd.texImage2D target level internalformat width height border
        format pixeltype data] }

/-- `gl.glDeleteTextures(1, ct.pointer(self._id))`. -/
def glDeleteTextures (handle : Nat) (s : GLState) : GLState :=
  { s with trace := s.trace ++ [GLCmd.deleteTextures 1 handle] }

/-- `gl.glGenFramebuffersEXT(1, ...)`: allocate one framebuffer handle. -/
def glGenFramebuffersEXT (s : GLState) : Nat × GLState :=
  (s.nextHandle,
    { s with nextHandle := s.nextHandle + 1
             trace := s.trace ++ [GLCmd.genFramebuffers 1 s.nextHandle] })

/-- `gl.glBindFramebufferEXT(target, handle)`. -/
def glBindFramebufferEXT (target handle : Nat) (s : GLState) : GLState :=
  let s' := { s with trace := s.trace ++ [GLCmd.bindFramebuffer target handle] }
  if target = GL_FRAMEBUFFER_EXT then { s' with boundFramebuffer := handle }
  else s'

/-- `gl.glCheckFramebufferStatusEXT(target)`: report the context's
framebuffer status. -/
def glCheckFramebufferStatusEXT (target : Nat) (s : GLState) : Nat × GLState :=
  (s.fbStatus,
    { s with trace := s.trace ++ [GLCmd.checkFramebufferStatus target] })

/-- `gl.glFramebufferTexture2DEXT(...)`. -/
def glFramebufferTexture2DEXT (target attachment textarget texture level : Nat)
    (s : GLState) : GLState :=
  { s with trace := s.trace ++
      [GLCmd.framebufferTexture2D target attachment textarget texture level] }

/-- `gl.glDeleteFramebuffersEXT(self._id)` (as written: no count argument). -/
def glDeleteFramebuffersEXT (handle : Nat) (s : GLState) : GLState :=
  { s with trace := s.trace ++ [GLCmd.deleteFramebuffers handle] }

/- The module-level dictionaries of gloo.py.  A Python `d[k]` lookup raises
`KeyError(k)` on a missing key, so each dictionary is an `Option`-valued
function here and the lookup sites produce `PyError.keyError`. -/

/-- The `_buffer_type_map` dictionary of gloo.py. -/
def _buffer_type_map (key : String) : Option Nat :=
  match key with
  | "data" => some GL_ARRAY_BUFFER
  | "elem" => some GL_ELEMENT_ARRAY_BUFFER
  | _ => none

/-- The ctypes element type stored as `self._dtype`; only its byte size is
observable through `ct.sizeof`. -/
inductive CDtype where
  | glfloat
  | gluint
  deriving Repr, DecidableEq

/-- `ct.sizeof` of one element: both `gl.GLfloat` and `gl.GLuint` are 4
bytes. -/
def CDtype.size : CDtype → Nat
  | .glfloat => 4
  | .gluint => 4

/-- The `_dtype_map` dictionary of gloo.py: dtype name to the pair
`(ctypes element type, GL type constant)`. -/
def _dtype_map (key : String) : Option (CDtype × Nat) :=
  match key with
  | "float" => some (CDtype.glfloat, GL_FLOAT)
  | "uint" => some (CDtype.gluint, GL_UNSIGNED_INT)
  | _ => none

/-- The `_mode_map` dictionary of gloo.py: primitive mode name to GL mode
constant. -/
def _mode_map (key : String) : Option Nat :=
  match key with
  | "POINTS" => some GL_POINTS
  | "LINE_STRIP" => some GL_LINE_STRIP
  | "LINE_LOOP" => some GL_LINE_LOOP
  | "TRIANGLES" => some GL_TRIANGLES
  | "TRIANGLE_FAN" => some GL_TRIANGLE_FAN
  | _ => none

/- VertexBuffer -/

/-- The instance attributes of a `VertexBuffer` object, as assigned by
`VertexBuffer.__init__`. -/
structure VertexBuffer where
  buffer_type : String
  _type : Nat
  data_type : String
  _dtype : CDtype
  _dtype_const : Nat
  _data : Option (List Int)
  _id : Nat
  deriving Repr

/-- The inherited read-only `id` property (`GLObject.id`): returns
`self._id`. -/
def VertexBuffer.id (b : VertexBuffer) : Nat := b._id

/-- The `data` property getter: returns `self._data`. -/
def VertexBuffer.data (b : VertexBuffer) : Option (List Int) := b._data

/-- `VertexBuffer.activate`: `gl.glBindBuffer(self._type, self._id)`. -/
def VertexBuffer.activate (b : VertexBuffer) (s : GLState) : GLState :=
  glBindBuffer b._type b._id s

/-- `VertexBuffer.deactivate`: `gl.glBindBuffer(self._type, 0)`. -/
def VertexBuffer.deactivate (b : VertexBuffer) (s : GLState) : GLState :=
  glBindBuffer b._type 0 s

/-- The static `VertexBuffer.deactivate_all`: bind 0 to the array-buffer slot,
then bind 0 to the element-array-buffer slot. -/
def VertexBuffer.deactivate_all (s : GLState) : GLState :=
  glBindBuffer GL_ELEMENT_ARRAY_BUFFER 0 (glBindBuffer GL_ARRAY_BUFFER 0 s)

/-- The `data` property setter: build the ctypes array (modelled by the list
and its byte size), `self.activate()`, `gl.glBufferData(self._type,
ct.sizeof(value_typed), value_typed, gl.GL_STATIC_DRAW)`, `self.deactivate()`,
then store `self._data = value`. -/
def VertexBuffer.setData (b : VertexBuffer) (value : List Int) (s : GLState) :
    VertexBuffer × GLState :=
  let s1 := b.activate s
  let s2 := glBufferData b._type (b._dtype.size * value.length) value
    GL_STATIC_DRAW s1
  let s3 := b.deactivate s2
  ({ b with _data := some value }, s3)

/-- `VertexBuffer.__init__(dtype, data=None, buffer_type='data')`: look up
`buffer_type` in `_buffer_type_map` (KeyError on a bad kind), look up `dtype`
in `_dtype_map` (KeyError on a bad dtype), set `self._data = None`, allocate
one handle with `glGenBuffers`, then run the `data` setter when `data` is not
None. -/
def VertexBuffer.init (dtype : String) (data : Option (List Int))
    (buffer_type : String) (s : GLState) :
    Except (PyError × GLState) (VertexBuffer × GLState) :=
  match _buffer_type_map buffer_type with
  | none => Except.error (PyError.keyError buffer_type, s)
  | some ty =>
    match _dtype_map dtype with
    | none => Except.error (PyError.keyError dtype, s)
    | some (dt, dtc) =>
      let (h, s1) := glGenBuffers s
      let b : VertexBuffer :=
        { buffer_type := buffer_type, _type := ty, data_type := dtype
          _dtype := dt, _dtype_const := dtc, _data := none, _id := h }
      match data with
      | none => Except.ok (b, s1)
      | some v => Except.ok (b.setData v s1)

/-- `VertexBuffer.draw(mode)`: look up `mode` in `_mode_map` (KeyError on a
bad mode), `self.activate()`, then: for an `'elem'` buffer issue
`gl.glDrawElements(draw_mode, len(self.data), self._dtype_const, 0)`
(`len(None)` is a TypeError when no data was ever set), for any other buffer
raise `ValueError("cannot draw a data buffer.")`; finally `self.deactivate()`
on the non-raising path. -/
def VertexBuffer.draw (b : VertexBuffer) (mode : String) (s : GLState) :
    Except (PyError × GLState) GLState :=
  match _mode_map mode with
  | none => Except.error (PyError.keyError mode, s)
  | some draw_mode =>
    let s1 := b.activate s
    if b.buffer_type = "elem" then
      match b._data with
      | none =>
        Except.error
          (PyError.typeError "object of type NoneType has no len()", s1)
      | some d =>
        let s2 := glDrawElements draw_mode d.length b._dtype_const 0 s1
        Except.ok (b.deactivate s2)
    else
      Except.error (PyError.valueError "cannot draw a data buffer.", s1)

/-- `VertexBuffer.delete`: `gl.glDeleteBuffers(1, self._id)`. -/
def VertexBuffer.delete (b : VertexBuffer) (s : GLState) : GLState :=
  glDeleteBuffers b._id s

/- Texture -/

/-- The instance attributes of a `Texture` object, as assigned by
`Texture.__init__`. -/
structure Texture where
  _id : Nat
  width : Nat
  height : Nat
  _data : Option (List Nat)
  deriving Repr

/-- The inherited read-only `id` property (`GLObject.id`): returns
`self._id`. -/
def Texture.id (t : Texture) : Nat := t._id

/-- The `data` property getter: returns `self._data`. -/
def Texture.data (t : Texture) : Option (List Nat) := t._data

/-- `Texture.__init__(width, height)`: allocate one texture handle, store
width and height, set `self._data = None`. -/
def Texture.init (width height : Nat) (s : GLState) : Texture × GLState :=
  let (h, s1) := glGenTextures s
  ({ _id := h, width := width, height := height, _data := none }, s1)

/-- `Texture.activate`: `gl.glBindTexture(gl.GL_TEXTURE_2D, self._id)`. -/
def Texture.activate (t : Texture) (s : GLState) : GLState :=
  glBindTexture GL_TEXTURE_2D t._id s

/-- `Texture.deactivate`: `gl.glBindTexture(gl.GL_TEXTURE_2D, 0)`. -/
def Texture.deactivate (_t : Texture) (s : GLState) : GLState :=
  glBindTexture GL_TEXTURE_2D 0 s

/-- `Texture._set_texture_parameters`: four `glTexParameteri` calls on
`GL_TEXTURE_2D` setting wrap S, wrap T to clamp-to-edge and min, mag filter
to linear. -/
def Texture._set_texture_parameters (_t : Texture) (s : GLState) : GLState :=
  let s1 := glTexParameteri GL_TEXTURE_2D GL_TEXTURE_WRAP_S GL_CLAMP_TO_EDGE s
  let s2 := glTexParameteri GL_TEXTURE_2D GL_TEXTURE_WRAP_T GL_CLAMP_TO_EDGE s1
  let s3 := glTexParameteri GL_TEXTURE_2D GL_TEXTURE_MIN_FILTER GL_LINEAR s2
  glTexParameteri GL_TEXTURE_2D GL_TEXTURE_MAG_FILTER GL_LINEAR s3

/-- The `data` property setter of `Texture`: `self.activate()`,
`gl.glTexImage2D(gl.GL_TEXTURE_2D, 0, gl.GL_RGB, self.width, self.height, 0,
gl.GL_RGB, gl.GL_UNSIGNED_BYTE, value)`, `self._set_texture_parameters()`,
store `self._data = value`, `self.deactivate()`. -/
def Texture.setData (t : Texture) (value : List Nat) (s : GLState) :
    Texture × GLState :=
  let s1 := t.activate s
  let s2 := glTexImage2D GL_TEXTURE_2D 0 GL_RGB t.width t.height 0 GL_RGB
    GL_UNSIGNED_BYTE value s1
  let s3 := t._set_texture_parameters s2
  let t' := { t with _data := some value }
  (t', t'.deactivate s3)

/-- `Texture.delete`: `gl.glDeleteTextures(1, ct.pointer(self._id))`. -/
def Texture.delete (t : Texture) (s : GLState) : GLState :=
  glDeleteTextures t._id s

/- DummyFrameBuffer -/

/-- A `DummyFrameBuffer` object carries no state. -/
structure DummyFrameBuffer where
  deriving Repr, DecidableEq

/-- Keyword arguments of a Python call, modelled as name-value pairs. -/
def Kwargs : Type := List (String × Int)

/-- `DummyFrameBuffer.__init__(self, *args, **kwargs)`: accepts anything,
does nothing. -/
def DummyFrameBuffer.init (_args : List Int) (_kwargs : Kwargs) :
    DummyFrameBuffer :=
  {}

/-- `DummyFrameBuffer.activate(self, *args, **kwargs)`: accepts anything,
does nothing — the context state is untouched. -/
def DummyFrameBuffer.activate (_d : DummyFrameBuffer) (_args : List Int)
    (_kwargs : Kwargs) (s : GLState) : GLState := s

/-- `DummyFrameBuffer.deactivate(self, *args, **kwargs)`: accepts anything,
does nothing. -/
def DummyFrameBuffer.deactivate (_d : DummyFrameBuffer) (_args : List Int)
    (_kwargs : Kwargs) (s : GLState) : GLState := s

/-- `DummyFrameBuffer.attach_texture(self, *args, **kwargs)`: accepts
anything, does nothing. -/
def DummyFrameBuffer.attach_texture (_d : DummyFrameBuffer) (_args : List Int)
    (_kwargs : Kwargs) (s : GLState) : GLState := s

/-- `DummyFrameBuffer.delete(self, *args, **kwargs)`: accepts anything, does
nothing. -/
def DummyFrameBuffer.delete (_d : DummyFrameBuffer) (_args : List Int)
    (_kwargs : Kwargs) (s : GLState) : GLState := s

/-- The attribute names the `DummyFrameBuffer` class body defines.  The class
has no base class besides `object`, so these (plus `object`'s own members)
are all its attributes; in particular there is no `id` property and no `_id`
slot. -/
def DummyFrameBuffer.classAttributes : List String :=
  ["__init__", "activate", "deactivate", "attach_texture", "delete"]

/-- The attribute names the `GLObject` abstract base class defines: the three
abstract methods and the `id` property. -/
def GLObject.classAttributes : List String :=
  ["activate", "deactivate", "delete", "id"]

/- FrameBuffer -/

/-- The instance attributes of a `FrameBuffer` object (only the handle). -/
structure FrameBuffer where
  _id : Nat
  deriving Repr, DecidableEq

/-- The inherited read-only `id` property (`GLObject.id`). -/
def FrameBuffer.id (fb : FrameBuffer) : Nat := fb._id

/-- The names visible from inside methods of gloo.py: the module's imports
(`gl`, `ct`, `ABCMeta`, `abstractmethod`), its module-level definitions and
the relevant builtins.  `FrameBuffer.__init__` refers to the bare names
`Gluint` and `pointer`, neither of which is in this scope (the module uses
`gl.GLuint` and `ct.pointer` everywhere else), so evaluating them raises
`NameError`. -/
def glooScopeNames : List String :=
  ["gl", "ct", "ABCMeta", "abstractmethod", "_buffer_type_map", "_dtype_map",
   "_mode_map", "GLObject", "VertexBuffer", "Texture", "DummyFrameBuffer",
   "FrameBuffer", "len"]

/-- `FrameBuffer._check_completion_status`: query
`gl.glCheckFramebufferStatusEXT(gl.GL_FRAMEBUFFER_EXT)`; when the status is
not `GL_FRAMEBUFFER_COMPLETE_EXT`, raise
`Exception("ERR {status}: FrameBuffer could not be created.")` with the raw
status code interpolated. -/
def FrameBuffer._check_completion_status (_fb : FrameBuffer) (s : GLState) :
    Except (PyError × GLState) GLState :=
  let (status, s1) := glCheckFramebufferStatusEXT GL_FRAMEBUFFER_EXT s
  if status ≠ GL_FRAMEBUFFER_COMPLETE_EXT then
    Except.error
      (PyError.exception
        ("ERR " ++ toString status ++ ": FrameBuffer could not be created."),
       s1)
  else Except.ok s1

/-- `FrameBuffer.__init__`: the first statement is `self._id = Gluint()`,
which evaluates the bare name `Gluint`; that name is not defined anywhere in
the module (a slip for `gl.GLuint`), so the constructor raises
`NameError("Gluint")` before touching the driver.  The second statement would
likewise evaluate the undefined bare name `pointer` (a slip for
`ct.pointer`).  Were both names in scope, the constructor would allocate a
handle and run `_check_completion_status`. -/
def FrameBuffer.init (s : GLState) :
    Except (PyError × GLState) (FrameBuffer × GLState) :=
  if glooScopeNames.contains "Gluint" then
    if glooScopeNames.contains "pointer" then
      let (h, s1) := glGenFramebuffersEXT s
      let fb : FrameBuffer := { _id := h }
      (FrameBuffer._check_completion_status fb s1).map (fun s2 => (fb, s2))
    else Except.error (PyError.nameError "pointer", s)
  else Except.error (PyError.nameError "Gluint", s)

/-- `FrameBuffer.activate`:
`gl.glBindFramebufferEXT(gl.GL_FRAMEBUFFER_EXT, self._id)`. -/
def FrameBuffer.activate (fb : FrameBuffer) (s : GLState) : GLState :=
  glBindFramebufferEXT GL_FRAMEBUFFER_EXT fb._id s

/-- `FrameBuffer.deactivate` as written in the source:
`gl.glBindFramebufferEXT(gl.GL_FRAMEBUFFER_EXT, self._id)` — it rebinds the
framebuffer's own handle, not 0 (its body is identical to `activate`). -/
def FrameBuffer.deactivate (fb : FrameBuffer) (s : GLState) : GLState :=
  glBindFramebufferEXT GL_FRAMEBUFFER_EXT fb._id s

/-- `FrameBuffer.attach_texture(texture)`: `self.activate()`,
`gl.glFramebufferTexture2DEXT(GL_FRAMEBUFFER_EXT, GL_COLOR_ATTACHMENT0_EXT,
GL_TEXTURE_2D, texture.id, 0)`, `self.deactivate()`. -/
def FrameBuffer.attach_texture (fb : FrameBuffer) (texture : Texture)
    (s : GLState) : GLState :=
  let s1 := fb.activate s
  let s2 := glFramebufferTexture2DEXT GL_FRAMEBUFFER_EXT
    GL_COLOR_ATTACHMENT0_EXT GL_TEXTURE_2D texture.id 0 s1
  fb.deactivate s2

/-- `FrameBuffer.delete`: `gl.glDeleteFramebuffersEXT(self._id)`. -/
def FrameBuffer.delete (fb : FrameBuffer) (s : GLState) : GLState :=
  glDeleteFramebuffersEXT fb._id s

/- Small observers used by the theorems. -/

/-- Recognise an indexed-draw command in the trace. -/
def GLCmd.isDrawElements : GLCmd → Bool
  | .drawElements _ _ _ _ => true
  | _ => false

/-- Recognise a buffer handle allocation in the trace. -/
def GLCmd.isGenBuffers : GLCmd → Bool
  | .genBuffers _ _ => true
  | _ => false

/-- Recognise a buffer data upload in the trace. -/
def GLCmd.isBufferData : GLCmd → Bool
  | .bufferData _ _ _ _ => true
  | _ => false

/-- Number of indexed-draw commands issued so far. -/
def drawCount (s : GLState) : Nat := s.trace.countP GLCmd.isDrawElements

/-- Number of buffer handle allocations issued so far. -/
def genBufferCount (s : GLState) : Nat := s.trace.countP GLCmd.isGenBuffers

/-- Number of buffer data uploads issued so far. -/
def bufferDataCount (s : GLState) : Nat := s.trace.countP GLCmd.isBufferData

/-- The contents of the bind slot that buffer target `target` names. -/
def bufferSlot (s : GLState) (target : Nat) : Nat :=
  if target = GL_ARRAY_BUFFER then s.boundArrayBuffer
  else if target = GL_ELEMENT_ARRAY_BUFFER then s.boundElementBuffer
  else 0

/- Helper lemmas about the driver primitives, shared by the claim proofs. -/

theorem glBindBuffer_trace (target handle : Nat) (s : GLState) :
    (glBindBuffer target handle s).trace =
      s.trace ++ [GLCmd.bindBuffer target handle] := by
  unfold glBindBuffer
  split
  · rfl
  · split <;> rfl

theorem glBindBuffer_nextHandle (target handle : Nat) (s : GLState) :
    (glBindBuffer target handle s).nextHandle = s.nextHandle := by
  unfold glBindBuffer
  split
  · rfl
  · split <;> rfl

/- Concrete fixtures used by witnesses and counterexamples: a fresh context
whose status query would report completeness, and objects exactly as the
constructors of gloo.py would build them in that context. -/

/-- A fresh context reporting framebuffer completeness. -/
def s0 : GLState := GLState.initial GL_FRAMEBUFFER_COMPLETE_EXT

/-- The `VertexBuffer` object built by
`VertexBuffer('float', buffer_type='data')` in a fresh context. -/
def dataBuf0 : VertexBuffer :=
  { buffer_type := "data", _type := GL_ARRAY_BUFFER, data_type := "float"
    _dtype := CDtype.glfloat, _dtype_const := GL_FLOAT, _data := none
    _id := 1 }

/-- The `VertexBuffer` object built by
`VertexBuffer('uint', data=[0, 1, 2], buffer_type='elem')` in a fresh
context. -/
def elemBuf0 : VertexBuffer :=
  { buffer_type := "elem", _type := GL_ELEMENT_ARRAY_BUFFER
    data_type := "uint", _dtype := CDtype.gluint
    _dtype_const := GL_UNSIGNED_INT, _data := some [0, 1, 2], _id := 1 }

/-- A `Texture` object with handle 5. -/
def tex5 : Texture := { _id := 5, width := 2, height := 2, _data := none }

/-- A `FrameBuffer` object with handle 5 (as `__init__` would produce were
its undefined names fixed). -/
def fb5 : FrameBuffer := { _id := 5 }

/- Claim theorems. -/

/-- C1: the spec claims Framebuffer construction succeeds when the status
query reports "complete" and raises FramebufferIncomplete otherwise.  The
code never gets that far: `FrameBuffer.__init__` begins with
`self._id = Gluint()` where `Gluint` is an undefined name (a slip for
`gl.GLuint`), so every construction — in particular one whose status query
would report `GL_FRAMEBUFFER_COMPLETE_EXT` — raises `NameError` before any
driver call, leaving the context untouched. -/
theorem frameBuffer_init_always_raises_name_error (s : GLState) :
    FrameBuffer.init s = Except.error (PyError.nameError "Gluint", s) := by
  rfl

/-- C2: for a vertex-data buffer (`buffer_type = 'data'`), `draw` with any
valid primitive mode raises `ValueError("cannot draw a data buffer.")` (the
spec's InvalidOperation) and no indexed-draw command is issued: the state at
the raise is `b.activate s`, whose trace holds exactly as many
`glDrawElements` commands as before the call. -/
theorem vertexBuffer_draw_data_buffer_raises_value_error
    (b : VertexBuffer) (mode : String) (dm : Nat) (s : GLState)
    (hk : b.buffer_type = "data") (hm : _mode_map mode = some dm) :
    VertexBuffer.draw b mode s =
      Except.error (PyError.valueError "cannot draw a data buffer.",
        b.activate s) ∧
    drawCount (b.activate s) = drawCount s := by
  constructor
  · unfold VertexBuffer.draw
    rw [hm, hk]
    simp
  · simp [drawCount, VertexBuffer.activate, glBindBuffer_trace,
      List.countP_append, GLCmd.isDrawElements]

/-- Witness for C2: drawing the concrete data buffer built by
`VertexBuffer('float', buffer_type='data')` with mode `'TRIANGLES'`. -/
theorem vertexBuffer_draw_data_buffer_raises_value_error_witness :
    VertexBuffer.draw dataBuf0 "TRIANGLES" s0 =
      Except.error (PyError.valueError "cannot draw a data buffer.",
        dataBuf0.activate s0) ∧
    drawCount (dataBuf0.activate s0) = drawCount s0 :=
  vertexBuffer_draw_data_buffer_raises_value_error dataBuf0 "TRIANGLES"
    GL_TRIANGLES s0 rfl rfl

/-- C3: for any buffer whose target is one of the two buffer targets (as the
constructor guarantees), the `data` setter stores the written sequence in the
host-side copy (`b.data` reads back exactly `value`), and the upload is
bracketed: the new trace commands are bind-handle, full upload sized per
element type and flagged `GL_STATIC_DRAW`, bind-0, so the buffer's slot ends
at 0. -/
theorem vertexBuffer_setData_roundtrip_and_bracketing
    (b : VertexBuffer) (value : List Int) (s : GLState)
    (h : b._type = GL_ARRAY_BUFFER ∨ b._type = GL_ELEMENT_ARRAY_BUFFER) :
    ((b.setData value s).1).data = some value ∧
    ((b.setData value s).2).trace = s.trace ++
      [GLCmd.bindBuffer b._type b._id,
       GLCmd.bufferData b._type (b._dtype.size * value.length) value
         GL_STATIC_DRAW,
       GLCmd.bindBuffer b._type 0] ∧
    bufferSlot ((b.setData value s).2) b._type = 0 := by
  refine ⟨rfl, ?_, ?_⟩
  · simp [VertexBuffer.setData, VertexBuffer.activate, VertexBuffer.deactivate,
      glBufferData, glBindBuffer_trace]
  · rcases h with h | h <;>
      simp [VertexBuffer.setData, VertexBuffer.activate,
        VertexBuffer.deactivate, glBufferData, glBindBuffer, bufferSlot, h,
        GL_ARRAY_BUFFER, GL_ELEMENT_ARRAY_BUFFER]

/-- Witness for C3: writing `[0, 1, 2]` to the concrete element buffer built
by `VertexBuffer('uint', buffer_type='elem')`. -/
theorem vertexBuffer_setData_roundtrip_and_bracketing_witness :
    ((elemBuf0.setData [0, 1, 2] s0).1).data = some [0, 1, 2] ∧
    ((elemBuf0.setData [0, 1, 2] s0).2).trace = s0.trace ++
      [GLCmd.bindBuffer elemBuf0._type elemBuf0._id,
       GLCmd.bufferData elemBuf0._type (elemBuf0._dtype.size * 3) [0, 1, 2]
         GL_STATIC_DRAW,
       GLCmd.bindBuffer elemBuf0._type 0] ∧
    bufferSlot ((elemBuf0.setData [0, 1, 2] s0).2) elemBuf0._type = 0 :=
  vertexBuffer_setData_roundtrip_and_bracketing elemBuf0 [0, 1, 2] s0
    (Or.inr rfl)

/-- C4: evaluating the deactivate methods at concrete objects shows the
divergence the spec's open question flags: `VertexBuffer.deactivate` and
`Texture.deactivate` rebind 0 into their slots, but `FrameBuffer.deactivate`
rebinds the framebuffer's *own* handle (its body is identical to
`activate`), so after deactivating a framebuffer with handle 5 the
framebuffer slot still holds 5, not 0. -/
theorem frameBuffer_deactivate_rebinds_own_handle :
    (VertexBuffer.deactivate dataBuf0 s0).boundArrayBuffer = 0 ∧
    (Texture.deactivate tex5 s0).boundTexture2D = 0 ∧
    (FrameBuffer.deactivate fb5 s0).boundFramebuffer = 5 ∧
    (FrameBuffer.deactivate fb5 s0).boundFramebuffer ≠ 0 := by
  refine ⟨rfl, rfl, rfl, ?_⟩
  decide

/-- C5: for an index-data buffer (`buffer_type = 'elem'`, element target)
holding data `d`, `draw` with any valid primitive mode succeeds and issues
exactly one indexed-draw command, covering all `d.length` elements with the
buffer's element-type constant and the looked-up mode; afterwards the
element-buffer slot is bound to 0 (the buffer is deactivated). -/
theorem vertexBuffer_draw_elem_issues_one_indexed_draw
    (b : VertexBuffer) (d : List Int) (mode : String) (dm : Nat) (s : GLState)
    (hk : b.buffer_type = "elem") (hty : b._type = GL_ELEMENT_ARRAY_BUFFER)
    (hd : b._data = some d) (hm : _mode_map mode = some dm) :
    ∃ s', VertexBuffer.draw b mode s = Except.ok s' ∧
      s'.trace = s.trace ++
        [GLCmd.bindBuffer GL_ELEMENT_ARRAY_BUFFER b._id,
         GLCmd.drawElements dm d.length b._dtype_const 0,
         GLCmd.bindBuffer GL_ELEMENT_ARRAY_BUFFER 0] ∧
      drawCount s' = drawCount s + 1 ∧
      s'.boundElementBuffer = 0 := by
  unfold VertexBuffer.draw
  rw [hm, hk, hd]
  refine ⟨b.deactivate (glDrawElements dm d.length b._dtype_const 0
    (b.activate s)), by rfl, ?_, ?_, ?_⟩
  · simp [VertexBuffer.activate, VertexBuffer.deactivate, glDrawElements,
      glBindBuffer_trace, hty]
  · simp [drawCount, VertexBuffer.activate, VertexBuffer.deactivate,
      glDrawElements, glBindBuffer_trace, List.countP_append,
      GLCmd.isDrawElements]
  · simp [VertexBuffer.deactivate, hty, glBindBuffer, GL_ARRAY_BUFFER,
      GL_ELEMENT_ARRAY_BUFFER]

/-- Witness for C5, the spec's scenario: the buffer built by
`VertexBuffer('uint', data=[0, 1, 2], buffer_type='elem')` drawn with
`'TRIANGLES'` issues one `glDrawElements` with count 3, type
`GL_UNSIGNED_INT` and mode `GL_TRIANGLES`, and leaves the element slot at
0. -/
theorem vertexBuffer_draw_elem_issues_one_indexed_draw_witness :
    ∃ s', VertexBuffer.draw elemBuf0 "TRIANGLES" s0 = Except.ok s' ∧
      s'.trace = s0.trace ++
        [GLCmd.bindBuffer GL_ELEMENT_ARRAY_BUFFER elemBuf0._id,
         GLCmd.drawElements GL_TRIANGLES 3 GL_UNSIGNED_INT 0,
         GLCmd.bindBuffer GL_ELEMENT_ARRAY_BUFFER 0] ∧
      drawCount s' = drawCount s0 + 1 ∧
      s'.boundElementBuffer = 0 :=
  vertexBuffer_draw_elem_issues_one_indexed_draw elemBuf0 [0, 1, 2]
    "TRIANGLES" GL_TRIANGLES s0 rfl rfl rfl rfl

/-- C6: after the `Texture` `data` setter runs, the sampling parameters of
the texture's handle are wrap S = wrap T = `GL_CLAMP_TO_EDGE` and min filter
= mag filter = `GL_LINEAR`, for every texture, every pixel buffer and every
prior context state — each call re-applies the four parameters while the
texture is bound. -/
theorem texture_setData_resets_sampling_parameters
    (t : Texture) (value : List Nat) (s : GLState) :
    ((t.setData value s).2).texParams t._id GL_TEXTURE_WRAP_S =
        GL_CLAMP_TO_EDGE ∧
    ((t.setData value s).2).texParams t._id GL_TEXTURE_WRAP_T =
        GL_CLAMP_TO_EDGE ∧
    ((t.setData value s).2).texParams t._id GL_TEXTURE_MIN_FILTER =
        GL_LINEAR ∧
    ((t.setData value s).2).texParams t._id GL_TEXTURE_MAG_FILTER =
        GL_LINEAR := by
  refine ⟨?_, ?_, ?_, ?_⟩ <;>
    simp [Texture.setData, Texture.activate, Texture.deactivate,
      Texture._set_texture_parameters, glBindTexture, glTexImage2D,
      glTexParameteri, Function.update, GL_TEXTURE_2D, GL_TEXTURE_WRAP_S,
      GL_TEXTURE_WRAP_T, GL_TEXTURE_MIN_FILTER, GL_TEXTURE_MAG_FILTER,
      GL_CLAMP_TO_EDGE, GL_LINEAR]

/-- C7 counterexample: the claim asserts the Null Framebuffer implements the
full Resource Interface contract *including the read-only id accessor*.  The
abstract base `GLObject` does define `id`, but `DummyFrameBuffer` is not a
`GLObject` subclass and its class body defines only `__init__`, `activate`,
`deactivate`, `attach_texture` and `delete` — accessing `.id` on a
`DummyFrameBuffer` raises `AttributeError`. -/
theorem dummyFrameBuffer_lacks_id_counterexample :
    "id" ∈ GLObject.classAttributes ∧
    "id" ∉ DummyFrameBuffer.classAttributes := by
  decide

/-- C7 amended: the Null Framebuffer implements activate, deactivate, delete
and attach-texture, each accepting and ignoring any positional and keyword
arguments and leaving the context untouched, so callers need no conditional
logic — but it does not provide the `id` accessor. -/
theorem dummyFrameBuffer_noop_operations :
    (∀ (d : DummyFrameBuffer) (args : List Int) (kwargs : Kwargs)
        (s : GLState),
      d.activate args kwargs s = s ∧
      d.deactivate args kwargs s = s ∧
      d.attach_texture args kwargs s = s ∧
      d.delete args kwargs s = s) ∧
    "activate" ∈ DummyFrameBuffer.classAttributes ∧
    "deactivate" ∈ DummyFrameBuffer.classAttributes ∧
    "attach_texture" ∈ DummyFrameBuffer.classAttributes ∧
    "delete" ∈ DummyFrameBuffer.classAttributes ∧
    "id" ∉ DummyFrameBuffer.classAttributes :=
  ⟨fun _ _ _ _ => ⟨rfl, rfl, rfl, rfl⟩, by decide, by decide, by decide,
    by decide, by decide⟩

/-- C8: the static `deactivate_all` unconditionally binds handle 0 into both
buffer slots — whatever was bound before, afterwards the array-buffer slot
and the element-array-buffer slot both hold 0, and the two issued commands
are exactly bind(array, 0) and bind(element, 0). -/
theorem vertexBuffer_deactivate_all_clears_both_slots (s : GLState) :
    (VertexBuffer.deactivate_all s).boundArrayBuffer = 0 ∧
    (VertexBuffer.deactivate_all s).boundElementBuffer = 0 ∧
    (VertexBuffer.deactivate_all s).trace = s.trace ++
      [GLCmd.bindBuffer GL_ARRAY_BUFFER 0,
       GLCmd.bindBuffer GL_ELEMENT_ARRAY_BUFFER 0] := by
  refine ⟨rfl, rfl, ?_⟩
  simp [VertexBuffer.deactivate_all, glBindBuffer_trace]

/-- C9: when `draw` on a vertex-data buffer raises, the buffer has already
been activated and no deactivate runs on that path: the state carried by the
propagating error is exactly `b.activate s`, and its array-buffer slot holds
the buffer's own handle — the failure is not atomic with respect to the
global bind state. -/
theorem vertexBuffer_draw_data_buffer_leaves_buffer_bound
    (b : VertexBuffer) (mode : String) (dm : Nat) (s : GLState)
    (hk : b.buffer_type = "data") (hty : b._type = GL_ARRAY_BUFFER)
    (hm : _mode_map mode = some dm) :
    VertexBuffer.draw b mode s =
      Except.error (PyError.valueError "cannot draw a data buffer.",
        b.activate s) ∧
    (b.activate s).boundArrayBuffer = b._id := by
  constructor
  · unfold VertexBuffer.draw
    rw [hm, hk]
    simp
  · simp [VertexBuffer.activate, hty, glBindBuffer, GL_ARRAY_BUFFER]

/-- Witness for C9: the concrete data buffer with handle 1 stays bound in the
array-buffer slot when `draw('POINTS')` raises. -/
theorem vertexBuffer_draw_data_buffer_leaves_buffer_bound_witness :
    VertexBuffer.draw dataBuf0 "POINTS" s0 =
      Except.error (PyError.valueError "cannot draw a data buffer.",
        dataBuf0.activate s0) ∧
    (dataBuf0.activate s0).boundArrayBuffer = dataBuf0._id :=
  vertexBuffer_draw_data_buffer_leaves_buffer_bound dataBuf0 "POINTS"
    GL_POINTS s0 rfl rfl rfl

/-- C10: `VertexBuffer.__init__` looks up the buffer kind and then the
element type before touching the driver: an unknown kind raises
`KeyError(kind)` and an unknown dtype raises `KeyError(dtype)`, in both cases
returning the context exactly as it was — no handle allocated, nothing
leaked.  With a valid kind and dtype the constructor succeeds, allocates
exactly one buffer handle, and issues a data upload exactly when initial
data is given. -/
theorem vertexBuffer_init_key_error_or_single_allocation
    (dtype buffer_type : String) (data : Option (List Int)) (s : GLState) :
    (_buffer_type_map buffer_type = none →
      VertexBuffer.init dtype data buffer_type s =
        Except.error (PyError.keyError buffer_type, s)) ∧
    (∀ ty, _buffer_type_map buffer_type = some ty → _dtype_map dtype = none →
      VertexBuffer.init dtype data buffer_type s =
        Except.error (PyError.keyError dtype, s)) ∧
    (∀ ty dt, _buffer_type_map buffer_type = some ty →
      _dtype_map dtype = some dt →
      ∃ b s', VertexBuffer.init dtype data buffer_type s =
          Except.ok (b, s') ∧
        genBufferCount s' = genBufferCount s + 1 ∧
        s'.nextHandle = s.nextHandle + 1 ∧
        bufferDataCount s' = bufferDataCount s +
          (if data.isSome then 1 else 0)) := by
  refine ⟨fun h => by simp [VertexBuffer.init, h], ?_, ?_⟩
  · intro ty h1 h2
    simp [VertexBuffer.init, h1, h2]
  · intro ty dt h1 h2
    cases data with
    | none =>
      refine ⟨_, _, by rw [VertexBuffer.init, h1, h2], ?_, rfl, ?_⟩
      · simp [genBufferCount, glGenBuffers, List.countP_append,
          GLCmd.isGenBuffers]
      · simp [bufferDataCount, glGenBuffers, List.countP_append,
          GLCmd.isBufferData]
    | some v =>
      refine ⟨_, _, by rw [VertexBuffer.init, h1, h2], ?_, ?_, ?_⟩
      · simp [genBufferCount, VertexBuffer.setData, VertexBuffer.activate,
          VertexBuffer.deactivate, glBufferData, glGenBuffers,
          glBindBuffer_trace, List.countP_append, GLCmd.isGenBuffers]
      · simp [VertexBuffer.setData, VertexBuffer.activate,
          VertexBuffer.deactivate, glBufferData, glGenBuffers,
          glBindBuffer_nextHandle]
      · simp [bufferDataCount, VertexBuffer.setData, VertexBuffer.activate,
          VertexBuffer.deactivate, glBufferData, glGenBuffers,
          glBindBuffer_trace, List.countP_append, GLCmd.isBufferData]

/-- Witness for C10, exercising all three branches concretely: an unknown
kind `'bogus'` raises KeyError without touching the context; an unknown
dtype `'double'` with the valid kind `'data'` raises KeyError without
touching the context; and `VertexBuffer('uint', data=[0, 1, 2],
buffer_type='elem')` succeeds with one handle allocated and one upload. -/
theorem vertexBuffer_init_key_error_or_single_allocation_witness :
    VertexBuffer.init "float" none "bogus" s0 =
      Except.error (PyError.keyError "bogus", s0) ∧
    VertexBuffer.init "double" none "data" s0 =
      Except.error (PyError.keyError "double", s0) ∧
    ∃ b s', VertexBuffer.init "uint" (some [0, 1, 2]) "elem" s0 =
        Except.ok (b, s') ∧
      genBufferCount s' = genBufferCount s0 + 1 ∧
      s'.nextHandle = s0.nextHandle + 1 ∧
      bufferDataCount s' = bufferDataCount s0 + 1 := by
  refine ⟨(vertexBuffer_init_key_error_or_single_allocation "float" "bogus"
      none s0).1 rfl,
    (vertexBuffer_init_key_error_or_single_allocation "double" "data" none
      s0).2.1 GL_ARRAY_BUFFER rfl rfl, ?_⟩
  obtain ⟨b, s', h1, h2, h3, h4⟩ :=
    (vertexBuffer_init_key_error_or_single_allocation "uint" "elem"
      (some [0, 1, 2]) s0).2.2 GL_ELEMENT_ARRAY_BUFFER
      (CDtype.gluint, GL_UNSIGNED_INT) rfl rfl
  exact ⟨b, s', h1, h2, h3, by simpa using h4⟩
